import Mathlib

/-!
Shallow embedding of `src/SlurmManager.py` (class `SlurmManager`): a thin
adapter that submits batch jobs to SLURM by rendering a shell script and
invoking external binaries (`sbatch`, `squeue`, `scancel`, `python`) as
subprocesses.

External subprocesses are modelled as oracles: a query environment maps an
argv list to a `ProcessResult`; the submission environment provides the
outcomes (possibly an exception) of the file write, the `sbatch` call and
the fallback `python -c` call.  Python exceptions are modelled with
`Except PyExc`; Python's `str.splitlines` is embedded faithfully including
its full set of line-boundary characters and `"\r\n"` pairing.
-/

namespace SlurmSpec

/-- Outcome of a finished child process as captured by `subprocess.run`
with `capture_output=True, text=True`. -/
structure ProcessResult where
  stdout : String
  stderr : String
  exitCode : Int
deriving DecidableEq

/-- An abstract Python exception (the code only distinguishes "some
exception was raised" from normal return). -/
inductive PyExc where
  | exc
deriving DecidableEq

/-- Semantics of `subprocess.run(cmd, check=True)`: the spawn itself may
raise (e.g. `FileNotFoundError` when the binary is absent), and with
`check=True` a non-zero exit status raises `CalledProcessError`. -/
def subprocess_run_check (spawn : Except PyExc ProcessResult) :
    Except PyExc ProcessResult :=
  match spawn with
  | .error e => .error e
  | .ok r => if r.exitCode = 0 then .ok r else .error .exc

/-- Python's substring test `needle in hay`: some tail of `hay` has
`needle` as a prefix. -/
def strContainsSub (hay needle : String) : Bool :=
  (List.range (hay.data.length + 1)).any
    (fun i => needle.data.isPrefixOf (hay.data.drop i))

/-- Embedding of `SlurmManager.slurm_available` (src lines 9-21): run
`sbatch --version` with `check=True`; on success test whether the string
`"sbatch"` occurs in stdout; any exception collapses to `false`. -/
def slurm_available (versionSpawn : Except PyExc ProcessResult) : Bool :=
  match subprocess_run_check versionSpawn with
  | .ok r => strContainsSub r.stdout "sbatch"
  | .error _ => false

/-- Embedding of `SlurmManager.is_slurm_available` (src lines 141-153),
textually the same body as `slurm_available`. -/
def is_slurm_available (versionSpawn : Except PyExc ProcessResult) : Bool :=
  match subprocess_run_check versionSpawn with
  | .ok r => strContainsSub r.stdout "sbatch"
  | .error _ => false

/-- The line-boundary characters of Python's `str.splitlines`. -/
def isPyLineBoundary (c : Char) : Bool :=
  c == '\n' || c == '\r' || c == '\x0b' || c == '\x0c' ||
  c == '\x1c' || c == '\x1d' || c == '\x1e' || c == '\x85' ||
  c == '\u2028' || c == '\u2029'

/-- Worker for `pySplitlines`: `acc` holds the (reversed) characters of
the current line; `"\r\n"` counts as a single boundary; a trailing
boundary does not produce an extra empty line. -/
def pySplitlinesAux : List Char → List Char → List String
  | [], acc => if acc.isEmpty then [] else [String.mk acc.reverse]
  | '\r' :: '\n' :: rest, acc => String.mk acc.reverse :: pySplitlinesAux rest []
  | c :: rest, acc =>
    if isPyLineBoundary c then String.mk acc.reverse :: pySplitlinesAux rest []
    else pySplitlinesAux rest (c :: acc)

/-- Python's `str.splitlines()` (keepends = False). -/
def pySplitlines (s : String) : List String := pySplitlinesAux s.data []

/-- A query environment: the `ProcessResult` returned by
`subprocess.run(argv, capture_output=True, text=True)` for each argv. -/
def QueryEnv : Type := List String → ProcessResult

/-- The argv built by `count_jobs` (src line 100). -/
def count_jobs_cmd (state : String) : List String :=
  ["squeue", "-h", "-t", state, "-o", "%i"]

/-- Embedding of `SlurmManager.count_jobs` (src lines 92-103): run the
query command and return `len(result.stdout.splitlines())`. -/
def count_jobs (env : QueryEnv) (state : String) : Nat :=
  (pySplitlines (env (count_jobs_cmd state)).stdout).length

/-- The argv built by `count_jobs_by_name` (src lines 134-136): the
`["-t", state]` filter is appended only when `state` is truthy, i.e.
present and non-empty. -/
def count_jobs_by_name_cmd (job_name : String) (state : Option String) :
    List String :=
  let cmd := ["squeue", "-h", "-n", job_name, "-o", "%i"]
  match state with
  | some s => if s.isEmpty then cmd else cmd ++ ["-t", s]
  | none => cmd

/-- Embedding of `SlurmManager.count_jobs_by_name` (src lines 126-139). -/
def count_jobs_by_name (env : QueryEnv) (job_name : String)
    (state : Option String) : Nat :=
  (pySplitlines (env (count_jobs_by_name_cmd job_name state)).stdout).length

/-- Embedding of `SlurmManager.cancel_jobs_by_name` (src lines 105-115). -/
def cancel_jobs_by_name (env : QueryEnv) (job_name : String) : String :=
  (env ["scancel", "--name", job_name]).stdout

/-- Embedding of `SlurmManager.view_queue` (src lines 117-124). -/
def view_queue (env : QueryEnv) : String :=
  (env ["squeue"]).stdout

/-- The list `slurm_args` built by `generate_slurm_args` (src lines
37-49), including the conditional requeue directive. `ntasks` and
`cpus_per_task` are Python ints, rendered by `str`. -/
def slurm_args_list (partition : String) (ntasks cpus_per_task : Int)
    (mem time job_name : String) : List String :=
  let slurm_args : List String :=
    ["#SBATCH --partition=" ++ partition,
     "#SBATCH --ntasks=" ++ toString ntasks,
     "#SBATCH --cpus-per-task=" ++ toString cpus_per_task,
     "#SBATCH --mem=" ++ mem,
     "#SBATCH --time=" ++ time,
     "#SBATCH --job-name=" ++ job_name,
     "#SBATCH --output=slurm_" ++ job_name ++ "_%j.out",
     "#SBATCH --error=slurm_" ++ job_name ++ "_%j.err"]
  if partition = "scavenger" then slurm_args ++ ["#SBATCH --requeue"]
  else slurm_args

/-- Embedding of `SlurmManager.generate_slurm_args` (src lines 23-51),
with the source's default argument values. -/
def generate_slurm_args (partition : String := "default")
    (ntasks : Int := 1) (cpus_per_task : Int := 1) (mem : String := "2G")
    (time : String := "1:00:00") (job_name : String := "python_job") :
    String :=
  String.intercalate "\n"
    (slurm_args_list partition ntasks cpus_per_task mem time job_name)

/-- The text contributed by the preamble (src lines 72-73): `if preamble:`
is Python truthiness, so `None` and `""` both contribute nothing. -/
def preamble_part : Option String → String
  | none => ""
  | some s => if s.isEmpty then "" else s ++ "\n"

/-- The full script text written to the temporary file by `submit_script`
(src lines 68-76): shebang, directives, optional preamble, blank line,
then the heredoc that pipes the payload into `python`. -/
def submit_script_text (python_script : String) (preamble : Option String)
    (partition : String) (ntasks cpus_per_task : Int)
    (mem time job_name : String) : String :=
  "#!/bin/bash\n"
    ++ (generate_slurm_args partition ntasks cpus_per_task mem time job_name
          ++ "\n")
    ++ preamble_part preamble
    ++ "\n"
    ++ ("python - <<EOF\n" ++ python_script ++ "\nEOF\n")

/-- Semantics of Python's `with` statement over explicit state: run
`enter`, run the body (whose raising is captured in `Except`), then run
`exitF` unconditionally — on the normal and on the exception path alike —
and propagate the body's outcome. -/
def pyWith {σ ρ ε α : Type} (enter : σ → σ × ρ) (exitF : ρ → σ → σ)
    (body : ρ → σ → Except ε α × σ) (s : σ) : Except ε α × σ :=
  let es := enter s
  let bs := body es.2 es.1
  (bs.1, exitF es.2 bs.2)

/-- Environment for `submit_script`: the outcome of writing the script to
the temporary file (writes may raise), the outcome of
`subprocess.run(["sbatch", tmpfile.name])` as a function of the script
text the file holds, and the outcome of `subprocess.run(argv)` for the
fallback interpreter call.  Neither `subprocess.run` uses `check=True`,
so a non-zero exit status does not raise; a spawn failure still may. -/
structure SubmitEnv where
  writeOutcome : Except PyExc Unit
  sbatchRun : String → Except PyExc ProcessResult
  pythonRun : List String → Except PyExc ProcessResult

/-- Embedding of `SlurmManager.submit_script` (src lines 53-90).  The
`Bool` in the result is the final state of "the temporary script file of
this call exists on disk" (initially `false`; entering the
`tempfile.NamedTemporaryFile(delete=True)` context creates it, leaving
the context deletes it).  When SLURM is available the script is written
and `sbatch` invoked inside the `with` block and its stdout returned;
otherwise the payload runs via `python -c` and that stdout is returned. -/
def submit_script_run (available : Bool) (env : SubmitEnv)
    (python_script : String) (preamble : Option String)
    (partition : String) (ntasks cpus_per_task : Int)
    (mem time job_name : String) : Except PyExc String × Bool :=
  if available then
    pyWith (fun _ => (true, ())) (fun _ _ => false)
      (fun _ s =>
        match env.writeOutcome with
        | .error e => (.error e, s)
        | .ok _ =>
          match env.sbatchRun (submit_script_text python_script preamble
              partition ntasks cpus_per_task mem time job_name) with
          | .error e => (.error e, s)
          | .ok r => (.ok r.stdout, s))
      false
  else
    match env.pythonRun ["python", "-c", python_script] with
    | .error e => (.error e, false)
    | .ok r => (.ok r.stdout, false)

/-- The adapter instance: its only field is the availability flag set
once by `__init__` (src lines 6-7). -/
structure SlurmManager where
  slurm_available : Bool
deriving DecidableEq

/-- Embedding of `SlurmManager.__init__` (src lines 6-7): probe once and
store the result. -/
def SlurmManager.init (versionSpawn : Except PyExc ProcessResult) :
    SlurmManager :=
  ⟨SlurmSpec.slurm_available versionSpawn⟩

/-- Method view of `submit_script`: reads `self.slurm_available`, never
assigns to `self`, so the instance is returned unchanged. -/
def SlurmManager.submit_scriptM (self : SlurmManager) (env : SubmitEnv)
    (python_script : String) (preamble : Option String)
    (partition : String) (ntasks cpus_per_task : Int)
    (mem time job_name : String) :
    (Except PyExc String × Bool) × SlurmManager :=
  (submit_script_run self.slurm_available env python_script preamble
      partition ntasks cpus_per_task mem time job_name,
   self)

/-- Method view of `count_jobs`: no assignment to `self`. -/
def SlurmManager.count_jobsM (self : SlurmManager) (env : QueryEnv)
    (state : String) : Nat × SlurmManager :=
  (count_jobs env state, self)

/-- Method view of `count_jobs_by_name`: no assignment to `self`. -/
def SlurmManager.count_jobs_by_nameM (self : SlurmManager) (env : QueryEnv)
    (job_name : String) (state : Option String) : Nat × SlurmManager :=
  (count_jobs_by_name env job_name state, self)

/-- Method view of `cancel_jobs_by_name`: no assignment to `self`. -/
def SlurmManager.cancel_jobs_by_nameM (self : SlurmManager) (env : QueryEnv)
    (job_name : String) : String × SlurmManager :=
  (cancel_jobs_by_name env job_name, self)

/-- Method view of `view_queue`: no assignment to `self`. -/
def SlurmManager.view_queueM (self : SlurmManager) (env : QueryEnv) :
    String × SlurmManager :=
  (view_queue env, self)

/-- Method view of `is_slurm_available`: re-probes, does not assign to
`self`. -/
def SlurmManager.is_slurm_availableM (self : SlurmManager)
    (versionSpawn : Except PyExc ProcessResult) : Bool × SlurmManager :=
  (is_slurm_available versionSpawn, self)

/-- Spec-side notion for claim C1: the number of non-empty lines of an
output string. -/
def numNonemptyLines (s : String) : Nat :=
  ((pySplitlines s).filter (fun l => !l.isEmpty)).length

/-- Each directive line determines its option by the character at index
10, the first character after the `"#SBATCH --"` marker. -/
def dirKey (s : String) : Option Char := s.data[10]?

theorem dirKey_append (a x : String) (h : 10 < a.data.length) :
    dirKey (a ++ x) = dirKey a := by
  unfold dirKey
  rw [String.data_append, List.getElem?_append_left h]

theorem slurm_args_list_map_dirKey (p : String) (n c : Int)
    (m t j : String) :
    (slurm_args_list p n c m t j).map dirKey =
      [some 'p', some 'n', some 'c', some 'm', some 't', some 'j',
       some 'o', some 'e'] ++
        (if p = "scavenger" then [some 'r'] else []) := by
  have k1 : dirKey ("#SBATCH --partition=" ++ p) = some 'p' := by
    rw [dirKey_append _ _ (by decide)]; decide
  have k2 : dirKey ("#SBATCH --ntasks=" ++ toString n) = some 'n' := by
    rw [dirKey_append _ _ (by decide)]; decide
  have k3 : dirKey ("#SBATCH --cpus-per-task=" ++ toString c) = some 'c' := by
    rw [dirKey_append _ _ (by decide)]; decide
  have k4 : dirKey ("#SBATCH --mem=" ++ m) = some 'm' := by
    rw [dirKey_append _ _ (by decide)]; decide
  have k5 : dirKey ("#SBATCH --time=" ++ t) = some 't' := by
    rw [dirKey_append _ _ (by decide)]; decide
  have k6 : dirKey ("#SBATCH --job-name=" ++ j) = some 'j' := by
    rw [dirKey_append _ _ (by decide)]; decide
  have hlen7 : 10 < ("#SBATCH --output=slurm_" ++ j).data.length := by
    rw [String.data_append, List.length_append]
    have : ("#SBATCH --output=slurm_").data.length = 23 := by decide
    omega
  have k7 : dirKey ("#SBATCH --output=slurm_" ++ j ++ "_%j.out") = some 'o' := by
    rw [dirKey_append _ _ hlen7, dirKey_append _ _ (by decide)]; decide
  have hlen8 : 10 < ("#SBATCH --error=slurm_" ++ j).data.length := by
    rw [String.data_append, List.length_append]
    have : ("#SBATCH --error=slurm_").data.length = 22 := by decide
    omega
  have k8 : dirKey ("#SBATCH --error=slurm_" ++ j ++ "_%j.err") = some 'e' := by
    rw [dirKey_append _ _ hlen8, dirKey_append _ _ (by decide)]; decide
  unfold slurm_args_list
  by_cases hp : p = "scavenger" <;>
    simp only [hp, if_true, if_false, List.map_append, List.map_cons,
      List.map_nil, k1, k2, k3, k4, k5, k6, k7, k8] <;>
    simp [dirKey]

theorem slurm_args_list_nodup (p : String) (n c : Int) (m t j : String) :
    (slurm_args_list p n c m t j).Nodup := by
  apply List.Nodup.of_map dirKey
  rw [slurm_args_list_map_dirKey]
  by_cases hp : p = "scavenger" <;> simp [hp]

set_option maxRecDepth 10000 in
/-- Claim C2: for every configuration option set, `generate_slurm_args`
produces exactly one directive line per option, in the fixed order
partition, ntasks, cpus-per-task, mem, time, job-name, output, error
(first eight lines, with only the conditional requeue line after them),
with no duplicate lines; and every omitted optional field falls back to
its fixed default (partition `"default"`, ntasks `1`, cpus_per_task `1`,
mem `"2G"`, time `"1:00:00"`, job_name `"python_job"`). -/
theorem generate_slurm_args_directives (p : String) (n c : Int)
    (m t j : String) :
    (slurm_args_list p n c m t j).take 8 =
      ["#SBATCH --partition=" ++ p,
       "#SBATCH --ntasks=" ++ toString n,
       "#SBATCH --cpus-per-task=" ++ toString c,
       "#SBATCH --mem=" ++ m,
       "#SBATCH --time=" ++ t,
       "#SBATCH --job-name=" ++ j,
       "#SBATCH --output=slurm_" ++ j ++ "_%j.out",
       "#SBATCH --error=slurm_" ++ j ++ "_%j.err"] ∧
    (slurm_args_list p n c m t j).length =
      (if p = "scavenger" then 9 else 8) ∧
    (slurm_args_list p n c m t j).Nodup ∧
    generate_slurm_args =
      "#SBATCH --partition=default\n#SBATCH --ntasks=1\n" ++
      "#SBATCH --cpus-per-task=1\n#SBATCH --mem=2G\n" ++
      "#SBATCH --time=1:00:00\n#SBATCH --job-name=python_job\n" ++
      "#SBATCH --output=slurm_python_job_%j.out\n" ++
      "#SBATCH --error=slurm_python_job_%j.err" := by
  refine ⟨?_, ?_, slurm_args_list_nodup p n c m t j, ?_⟩
  · unfold slurm_args_list
    by_cases hp : p = "scavenger" <;> simp [hp]
  · unfold slurm_args_list
    by_cases hp : p = "scavenger" <;> simp [hp]
  · decide

/-- Claim C3: the output of `generate_slurm_args` contains the requeue
directive if and only if the partition argument is `"scavenger"`. -/
theorem generate_slurm_args_requeue_iff (p : String) (n c : Int)
    (m t j : String) :
    ("#SBATCH --requeue" ∈ slurm_args_list p n c m t j) ↔
      p = "scavenger" := by
  constructor
  · intro hmem
    by_contra hp
    have hmap : dirKey "#SBATCH --requeue" ∈
        (slurm_args_list p n c m t j).map dirKey :=
      List.mem_map_of_mem dirKey hmem
    rw [slurm_args_list_map_dirKey, if_neg hp] at hmap
    have hr : dirKey "#SBATCH --requeue" = some 'r' := by decide
    rw [hr] at hmap
    revert hmap
    decide
  · intro hp
    unfold slurm_args_list
    rw [if_pos hp]
    exact List.mem_append_right _ (by simp)

/-- Claim C6: the availability probe (`slurm_available`, and
`is_slurm_available`, which has the same body) returns `true` exactly
when the `sbatch --version` invocation returned normally with exit
status zero and its stdout contains `"sbatch"`; it is a total function
into `Bool`, so every failure (spawn exception or non-zero exit) yields
`false` and no error is ever propagated. -/
theorem availability_probe_spec (spawn : Except PyExc ProcessResult) :
    is_slurm_available spawn = slurm_available spawn ∧
    (slurm_available spawn = true ↔
      ∃ r, spawn = .ok r ∧ r.exitCode = 0 ∧
        strContainsSub r.stdout "sbatch" = true) := by
  refine ⟨rfl, ?_⟩
  unfold slurm_available subprocess_run_check
  cases spawn with
  | error e => simp
  | ok r =>
    by_cases h : r.exitCode = 0 <;> simp [h]

/-- Claim C1 as stated is false: `count_jobs` counts every line produced
by `splitlines`, empty lines included.  On query output
`"123\n\n456\n"` (three lines, one of them empty) both counters return
3 while the number of non-empty lines is 2. -/
theorem count_jobs_nonempty_lines_counterexample :
    count_jobs (fun _ => ⟨"123\n\n456\n", "", 0⟩) "RUNNING" = 3 ∧
    count_jobs_by_name (fun _ => ⟨"123\n\n456\n", "", 0⟩) "job" none = 3 ∧
    numNonemptyLines "123\n\n456\n" = 2 := by
  refine ⟨by decide, by decide, by decide⟩

/-- Claim C1, amended: `count_jobs` and `count_jobs_by_name` return the
number of lines of the query tool's output as split by Python
`splitlines`, counting empty lines as well; whenever every output line
is non-empty this equals the number of non-empty lines, and an output
of 0 lines yields 0. -/
theorem count_jobs_line_count (env : QueryEnv) (state job_name : String)
    (stQ : Option String)
    (h1 : ∀ l ∈ pySplitlines (env (count_jobs_cmd state)).stdout, l ≠ "")
    (h2 : ∀ l ∈ pySplitlines
        (env (count_jobs_by_name_cmd job_name stQ)).stdout, l ≠ "") :
    count_jobs env state =
      (pySplitlines (env (count_jobs_cmd state)).stdout).length ∧
    count_jobs env state =
      numNonemptyLines (env (count_jobs_cmd state)).stdout ∧
    count_jobs_by_name env job_name stQ =
      numNonemptyLines (env (count_jobs_by_name_cmd job_name stQ)).stdout ∧
    (∀ envE : QueryEnv, ∀ st : String,
      (envE (count_jobs_cmd st)).stdout = "" → count_jobs envE st = 0) := by
  have filterSelf : ∀ (xs : List String), (∀ l ∈ xs, l ≠ "") →
      xs.filter (fun l => !l.isEmpty) = xs := by
    intro xs hxs
    apply List.filter_eq_self.mpr
    intro a ha
    have hx := hxs a ha
    rw [Ne, ← String.isEmpty_iff, Bool.not_eq_true] at hx
    simp [hx]
  refine ⟨rfl, ?_, ?_, ?_⟩
  · unfold count_jobs numNonemptyLines
    rw [filterSelf _ h1]
  · unfold count_jobs_by_name numNonemptyLines
    rw [filterSelf _ h2]
  · intro envE st hempty
    unfold count_jobs
    rw [hempty]
    decide

theorem count_jobs_line_count_witness :
    count_jobs (fun _ => ⟨"123\n456\n789\n", "", 0⟩) "RUNNING" =
      numNonemptyLines "123\n456\n789\n" ∧
    count_jobs (fun _ => ⟨"123\n456\n789\n", "", 0⟩) "RUNNING" = 3 :=
  ⟨(count_jobs_line_count (fun _ => ⟨"123\n456\n789\n", "", 0⟩) "RUNNING"
      "job" none (by decide) (by decide)).2.1,
   by decide⟩

/-- Claim C4: for every payload and every (possibly absent) preamble,
the script text rendered by `submit_script` begins with the shebang line
and contains the payload verbatim inside the heredoc block, whatever
characters the payload holds. -/
theorem submit_script_text_shebang_and_payload (script : String)
    (preamble : Option String) (p : String) (n c : Int)
    (m t j : String) :
    (∃ rest, submit_script_text script preamble p n c m t j =
      "#!/bin/bash\n" ++ rest) ∧
    (∃ beforeHeredoc, submit_script_text script preamble p n c m t j =
      beforeHeredoc ++ ("python - <<EOF\n" ++ script ++ "\nEOF\n")) := by
  constructor
  · refine ⟨(generate_slurm_args p n c m t j ++ "\n") ++
      (preamble_part preamble ++ ("\n" ++
        ("python - <<EOF\n" ++ script ++ "\nEOF\n"))), ?_⟩
    unfold submit_script_text
    simp [String.append_assoc]
  · exact ⟨"#!/bin/bash\n"
      ++ (generate_slurm_args p n c m t j ++ "\n")
      ++ preamble_part preamble ++ "\n", rfl⟩

/-- Claim C5: on every call to `submit_script` the temporary script file
is absent after the call, on every exit path: when SLURM is available
the `with` block deletes it whether the body returned normally or raised
(during the write or during the `sbatch` invocation — the environment
ranges over all such outcomes), and when SLURM is unavailable the file
is never created at all. -/
theorem submit_script_tempfile_cleanup (available : Bool)
    (env : SubmitEnv) (script : String) (preamble : Option String)
    (p : String) (n c : Int) (m t j : String) :
    (submit_script_run available env script preamble p n c m t j).2 =
      false := by
  unfold submit_script_run pyWith
  cases available with
  | true => rfl
  | false =>
    cases env.pythonRun ["python", "-c", script] <;> rfl

/-- Claim C7: with SLURM unavailable, `submit_script` runs the payload
via `python -c` and returns that subprocess's stdout, leaves the
temporary-file state untouched (no file is created), and ignores the
fallback process's stderr and exit code. -/
theorem submit_script_fallback_local (env : SubmitEnv) (script : String)
    (preamble : Option String) (p : String) (n c : Int)
    (m t j : String) (pr : ProcessResult)
    (h : env.pythonRun ["python", "-c", script] = .ok pr) :
    submit_script_run false env script preamble p n c m t j =
      (.ok pr.stdout, false) := by
  unfold submit_script_run
  rw [if_neg (by simp)]
  rw [h]

theorem submit_script_fallback_local_witness :
    submit_script_run false
      ⟨.ok (), fun _ => .ok ⟨"", "", 0⟩, fun _ => .ok ⟨"1\n", "boom", 3⟩⟩
      "print(1)" none "default" 1 1 "2G" "1:00:00" "python_job" =
      (.ok "1\n", false) :=
  submit_script_fallback_local
    ⟨.ok (), fun _ => .ok ⟨"", "", 0⟩, fun _ => .ok ⟨"1\n", "boom", 3⟩⟩
    "print(1)" none "default" 1 1 "2G" "1:00:00" "python_job"
    ⟨"1\n", "boom", 3⟩ rfl

/-- Claim C8: with SLURM available and the write succeeding, when the
`sbatch` invocation on the rendered script returns a process result,
`submit_script` returns exactly that result's stdout — the stderr and
the exit code (zero or not) are dropped and never raise. -/
theorem submit_script_returns_sbatch_stdout (env : SubmitEnv)
    (script : String) (preamble : Option String) (p : String)
    (n c : Int) (m t j : String) (pr : ProcessResult)
    (hw : env.writeOutcome = .ok ())
    (hs : env.sbatchRun
        (submit_script_text script preamble p n c m t j) = .ok pr) :
    submit_script_run true env script preamble p n c m t j =
      (.ok pr.stdout, false) := by
  unfold submit_script_run pyWith
  rw [if_pos rfl]
  simp only [hw, hs]

theorem submit_script_returns_sbatch_stdout_witness :
    submit_script_run true
      ⟨.ok (), fun _ => .ok ⟨"Submitted batch job 42\n", "warn", 1⟩,
        fun _ => .ok ⟨"", "", 0⟩⟩
      "print(1)" none "default" 1 1 "2G" "1:00:00" "python_job" =
      (.ok "Submitted batch job 42\n", false) :=
  submit_script_returns_sbatch_stdout
    ⟨.ok (), fun _ => .ok ⟨"Submitted batch job 42\n", "warn", 1⟩,
      fun _ => .ok ⟨"", "", 0⟩⟩
    "print(1)" none "default" 1 1 "2G" "1:00:00" "python_job"
    ⟨"Submitted batch job 42\n", "warn", 1⟩ rfl rfl

/-- Claim C9: the cached availability flag is set once by the
constructor from the probe, and every public operation returns the
instance unchanged — none of them mutates `slurm_available`. -/
theorem slurm_available_flag_immutable (self : SlurmManager)
    (qenv : QueryEnv) (senv : SubmitEnv)
    (spawn : Except PyExc ProcessResult) (script job_name state : String)
    (preamble stQ : Option String) (p : String) (n c : Int)
    (m t j : String) :
    (SlurmManager.init spawn).slurm_available = slurm_available spawn ∧
    (self.submit_scriptM senv script preamble p n c m t j).2 = self ∧
    (self.count_jobsM qenv state).2 = self ∧
    (self.count_jobs_by_nameM qenv job_name stQ).2 = self ∧
    (self.cancel_jobs_by_nameM qenv job_name).2 = self ∧
    (self.view_queueM qenv).2 = self ∧
    (self.is_slurm_availableM spawn).2 = self :=
  ⟨rfl, rfl, rfl, rfl, rfl, rfl, rfl⟩

/-- Claim C10: passing the empty string where `None` is expected makes
no difference, by Python truthiness: `count_jobs_by_name` with
`state=""` builds the same argv (no `-t` flag) and returns the same
count as with `state=None`, and `submit_script` with `preamble=""`
renders the same script text as with `preamble=None`. -/
theorem empty_state_and_empty_preamble_like_absent (env : QueryEnv)
    (job_name script : String) (p : String) (n c : Int)
    (m t j : String) :
    count_jobs_by_name_cmd job_name (some "") =
      count_jobs_by_name_cmd job_name none ∧
    count_jobs_by_name env job_name (some "") =
      count_jobs_by_name env job_name none ∧
    submit_script_text script (some "") p n c m t j =
      submit_script_text script none p n c m t j :=
  ⟨rfl, rfl, rfl⟩

end SlurmSpec
